import Mathlib

/-!
Verification of the arroyo job controller against its specification.

This development is a shallow embedding of the controller code:
  - crates/arroyo-controller/src/job_controller/mod.rs
      (RunningJobModel, JobController, checkpoint coordination)
  - crates/arroyo-controller/src/states/running.rs (Running::next error paths)
  - crates/arroyo-api/src/rest_utils.rs (pagination validation)

Machine integers (u32) are modelled as Nat with explicit reduction mod 2^32
where overflow matters.  Wall-clock instants are abstract Nat timestamps
threaded through an environment.  RPC and database calls are modelled as an
explicit effect trace.
-/

namespace Arroyo

/-- Source `CHECKPOINTS_TO_KEEP` from job_controller/mod.rs. -/
def CHECKPOINTS_TO_KEEP : Nat := 4

/-- Source `CHECKPOINT_ROWS_TO_KEEP` from job_controller/mod.rs. -/
def CHECKPOINT_ROWS_TO_KEEP : Nat := 100

/-- Source `COMPACT_EVERY` from job_controller/mod.rs. -/
def COMPACT_EVERY : Nat := 2

/-- u32 modulus, for the places where wrap-around arithmetic matters. -/
def U32_MOD : Nat := 2 ^ 32

/-- Source `JobCheckpointEventType` (arroyo-rpc api_types): the checkpoint-wide span
events recorded on a checkpoint. -/
inductive JobCheckpointEventType where
  | Checkpointing
  | CheckpointingOperators
  | WritingMetadata
  | Committing
  | Compacting
deriving DecidableEq

/-- Source `JobCheckpointSpan`: a named time interval on a checkpoint; `finish_time`
is `none` while the span is open. -/
structure JobCheckpointSpan where
  event : JobCheckpointEventType
  start_time : Nat
  finish_time : Option Nat
deriving DecidableEq

/-- Source `JobCheckpointSpan::now(event)`: a fresh open span starting now. -/
def JobCheckpointSpan.now (event : JobCheckpointEventType) (t : Nat) : JobCheckpointSpan :=
  { event := event, start_time := t, finish_time := none }

/-- Source `TaskCheckpointEventType` (worker RPC protocol).  Modelled from the spec:
the proto definition is not under src/; the spec lists AlignmentStarted,
CheckpointStarted, FinishedSync, FinishedCommit.  Only FinishedCommit is
inspected by the controller code under verification. -/
inductive TaskCheckpointEventType where
  | AlignmentStarted
  | CheckpointStarted
  | FinishedSync
  | FinishedCommit
deriving DecidableEq

/-- The payload of a `TaskCheckpointEvent` running message. -/
structure TaskCheckpointEventMsg where
  epoch : Nat
  operator_id : String
  subtask_index : Nat
  event_type : TaskCheckpointEventType
deriving DecidableEq

/-- The payload of a `TaskCheckpointFinished` running message.  The
commit-related fields model the per-operator finished payload from which the
committing state is derived (arroyo-state, not under src/; modelled from the
spec: operators that declared commit work and their opaque committing data). -/
structure TaskCheckpointFinishedMsg where
  epoch : Nat
  operator_id : String
  subtask_index : Nat
  commit_subtasks : List (String × Nat)
  commit_data : List (String × String)
deriving DecidableEq

/-- Modelled from the spec: `CommittingState` (arroyo-state
committing_state.rs, not under src/).  Per-operator committing-data plus the
set of subtasks that have acknowledged commit; `done()` iff every required
subtask has acknowledged. -/
structure CommittingState where
  checkpoint_id : String
  required : List (String × Nat)
  acked : List (String × Nat)
  committing_data : List (String × String)
deriving DecidableEq

/-- Modelled from the spec: `done()` iff every required subtask has
acknowledged its commit. -/
def CommittingState.done (c : CommittingState) : Bool :=
  c.required.all (fun s => c.acked.contains s)

/-- Modelled from the spec: mark `(operator_id, subtask_index)` as committed. -/
def CommittingState.subtask_committed (c : CommittingState) (op : String) (idx : Nat) :
    CommittingState :=
  { c with acked := (op, idx) :: c.acked }

/-- Modelled from the spec: `CheckpointState` (arroyo-state
checkpoint_state.rs, not under src/).  Per-operator completion table, an event
log, and the derived committing state accumulated from finished payloads;
`done()` iff every operator of the program has reported completion. -/
structure CheckpointState where
  checkpoint_id : String
  operators : List String
  finished_operators : List String
  events : List (String × Nat × TaskCheckpointEventType)
  committing : CommittingState
deriving DecidableEq

/-- Modelled from the spec: the Checkpointing phase is done iff every operator
in the program has reported completion for this epoch. -/
def CheckpointState.done (c : CheckpointState) : Bool :=
  c.operators.all (fun op => c.finished_operators.contains op)

/-- Modelled from the spec: record a task checkpoint event in the event log. -/
def CheckpointState.checkpoint_event (c : CheckpointState) (e : TaskCheckpointEventMsg) :
    CheckpointState :=
  { c with events := c.events ++ [(e.operator_id, e.subtask_index, e.event_type)] }

/-- Modelled from the spec: record a finished subtask; collect any declared
commit work into the derived committing state. -/
def CheckpointState.checkpoint_finished (c : CheckpointState) (f : TaskCheckpointFinishedMsg) :
    CheckpointState :=
  { c with
    finished_operators := c.finished_operators ++ [f.operator_id]
    committing :=
      { c.committing with
        required := c.committing.required ++ f.commit_subtasks
        committing_data := c.committing.committing_data ++ f.commit_data } }

/-- Modelled from the spec: the derivation `committing_state()` yields the
collected commit work. -/
def CheckpointState.committing_state (c : CheckpointState) : CommittingState :=
  c.committing

/-- Source `CheckpointingOrCommittingState` from job_controller/mod.rs. -/
inductive CheckpointingOrCommittingState where
  | Checkpointing (s : CheckpointState)
  | Committing (s : CommittingState)
deriving DecidableEq

/-- Source `CheckpointingOrCommittingState::done` (job_controller/mod.rs lines 50-55). -/
def CheckpointingOrCommittingState.done : CheckpointingOrCommittingState → Bool
  | .Checkpointing checkpointing => checkpointing.done
  | .Committing committing => committing.done

/-- Source `WorkerState` from job_controller/mod.rs. -/
inductive WorkerState where
  | Running
  | Stopped
deriving DecidableEq

/-- Source `TaskState` from job_controller/mod.rs. -/
inductive TaskState where
  | Running
  | Finished
  | Failed (reason : String)
deriving DecidableEq

/-- Source `JobState` from job_controller/mod.rs. -/
inductive JobState where
  | Running
  | Stopped
deriving DecidableEq

/-- Source `WorkerStatus` from job_controller/mod.rs (the RPC handle is implicit in
the effect trace). -/
structure WorkerStatus where
  id : Nat
  last_heartbeat : Nat
  state : WorkerState
deriving DecidableEq

/-- Source `DbCheckpointState` (checkpoint_state column of the metadata store). -/
inductive DbCheckpointState where
  | inprogress
  | committing
  | ready
  | compacting
  | compacted
deriving DecidableEq

/-- Source `RunningJobModel` from job_controller/mod.rs.  The HashMaps for workers
and tasks are modelled as association lists; `program_sources` and
`program_operators` are the derived views of the logical program that the
model consults (source node ids; operator ids of the operator chains).
Metrics aggregation state is reduced to the `last_updated_metrics` instant. -/
structure RunningJobModel where
  job_id : String
  state : JobState
  checkpoint_state : Option CheckpointingOrCommittingState
  epoch : Nat
  min_epoch : Nat
  last_checkpoint : Nat
  workers : List (Nat × WorkerStatus)
  tasks : List ((Nat × Nat) × TaskState)
  program_sources : List Nat
  program_operators : List String
  last_updated_metrics : Nat
  checkpoint_spans : List JobCheckpointSpan
deriving DecidableEq

/-- The environment a controller step runs in: the current instant, the
process-wide configuration snapshot, per-worker RPC outcomes and the next
generated checkpoint id. -/
structure Env where
  now : Nat
  compaction_enabled : Bool
  worker_heartbeat_timeout : Nat
  collection_rate : Nat
  rpc_ok : Nat → Bool
  fresh_checkpoint_id : String

/-- The observable RPC / database effects of a controller step, in issue
order. -/
inductive Effect where
  | CheckpointRpc (worker : Nat) (epoch : Nat) (timestamp : Nat) (min_epoch : Nat)
      (then_stop : Bool) (is_commit : Bool)
  | CommitRpc (worker : Nat) (epoch : Nat) (committing_data : List (String × String))
  | JobFinishedRpc (worker : Nat)
  | CreateCheckpointRow (id : String) (org : String) (job : String) (epoch : Nat)
      (min_epoch : Nat) (start_time : Nat) (db_state : DbCheckpointState)
  | UpdateCheckpointRow (id : String) (finish_time : Option Nat) (db_state : DbCheckpointState)
  | CommitCheckpointRow (id : String) (finish_time : Nat)
  | WriteMetadata (id : String)
  | CompactState
  | NotifyDb
  | StartCleanup (new_min : Nat)
  | LoadCheckpointMetadata (epoch : Nat)
  | MarkCompacting (cur_min : Nat) (new_min : Nat)
  | CleanupCheckpoint (cur_min : Nat) (new_min : Nat)
  | MarkCheckpointsCompacted (new_min : Nat)
  | DropOldCheckpointRows (before_epoch : Nat)
  | SleepRetry
  | UpdateMetrics
deriving DecidableEq

/-! ## Span helpers (RunningJobModel::start_or_get_span and JobCheckpointSpan::finish) -/

/-- List-level `start_or_get_span`: return the spans unchanged if a span for
the event exists, else append a fresh open span starting now. -/
def startOrGetSpans (spans : List JobCheckpointSpan) (e : JobCheckpointEventType) (t : Nat) :
    List JobCheckpointSpan :=
  if spans.any (fun s => s.event == e) then spans
  else spans ++ [JobCheckpointSpan.now e t]

/-- Close the first span for the event (the one `start_or_get_span` /
`iter_mut().find` would return), setting its finish time to now; spans without
a matching event are untouched, and nothing is appended. -/
def finishFirstSpan : List JobCheckpointSpan → JobCheckpointEventType → Nat →
    List JobCheckpointSpan
  | [], _, _ => []
  | s :: rest, e, t =>
    if s.event == e then { s with finish_time := some t } :: rest
    else s :: finishFirstSpan rest e t

/-- Source `self.start_or_get_span(e)` on the model. -/
def RunningJobModel.start_or_get_span (m : RunningJobModel) (e : JobCheckpointEventType)
    (t : Nat) : RunningJobModel :=
  { m with checkpoint_spans := startOrGetSpans m.checkpoint_spans e t }

/-- Source `self.start_or_get_span(e).finish()` on the model. -/
def RunningJobModel.finish_span (m : RunningJobModel) (e : JobCheckpointEventType)
    (t : Nat) : RunningJobModel :=
  { m with checkpoint_spans := finishFirstSpan (startOrGetSpans m.checkpoint_spans e t) e t }

/-- The span `iter().find` / `iter_mut().find` returns: the first span for the
event. -/
def findSpan (spans : List JobCheckpointSpan) (e : JobCheckpointEventType) :
    Option JobCheckpointSpan :=
  spans.find? (fun s => s.event == e)

/-! ## RunningJobModel predicates -/

/-- Source `RunningJobModel::all_tasks_finished` (job_controller/mod.rs lines 595-599). -/
def RunningJobModel.all_tasks_finished (m : RunningJobModel) : Bool :=
  m.tasks.all (fun t => t.2 == TaskState.Finished)

/-- Source `RunningJobModel::any_finished_sources` (job_controller/mod.rs lines 587-593). -/
def RunningJobModel.any_finished_sources (m : RunningJobModel) : Bool :=
  m.tasks.any (fun t => m.program_sources.contains t.1.1 && t.2 == TaskState.Finished)

/-- Source `WorkerStatus::heartbeat_timeout`: the heartbeat age exceeds the
configured worker-heartbeat-timeout. -/
def WorkerStatus.heartbeat_timeout (w : WorkerStatus) (env : Env) : Bool :=
  env.now - w.last_heartbeat > env.worker_heartbeat_timeout

/-- Source `RunningJobModel::failed` (job_controller/mod.rs lines 559-585). -/
def RunningJobModel.failed (m : RunningJobModel) (env : Env) : Bool :=
  m.workers.any (fun w => w.2.heartbeat_timeout env) ||
    m.tasks.any (fun t => match t.2 with | TaskState.Failed _ => true | _ => false)

/-- Source `RunningJobModel::cleanup_needed` (job_controller/mod.rs lines 551-557). -/
def RunningJobModel.cleanup_needed (m : RunningJobModel) : Option Nat :=
  if m.epoch - m.min_epoch > CHECKPOINTS_TO_KEEP && m.epoch % COMPACT_EVERY == 0 then
    some (m.epoch - CHECKPOINTS_TO_KEEP)
  else
    none

/-! ## Stateful model operations -/

/-- Source `RunningJobModel::update_db` (job_controller/mod.rs lines 130-148): persist
the in-progress checkpoint row, but only while the coordination state is in
the Checkpointing phase. -/
def RunningJobModel.update_db_effects (m : RunningJobModel) : List Effect :=
  match m.checkpoint_state with
  | some (.Checkpointing checkpoint_state) =>
    [Effect.UpdateCheckpointRow checkpoint_state.checkpoint_id none DbCheckpointState.inprogress]
  | _ => []

/-- Source `RunningJobModel::compact_state` (job_controller/mod.rs lines 413-463):
no-op when compaction is globally disabled; otherwise open (or reuse) the
Compacting span, run the per-operator compaction and worker pushes (abstracted
as one effect), and close the span. -/
def RunningJobModel.compact_state (m : RunningJobModel) (env : Env) :
    RunningJobModel × List Effect :=
  if !env.compaction_enabled then (m, [])
  else
    let m1 := m.start_or_get_span JobCheckpointEventType.Compacting env.now
    (m1.finish_span JobCheckpointEventType.Compacting env.now, [Effect.CompactState])

/-- The union of running messages handled by the model (controller lib.rs;
the worker/time fields that the handler ignores are kept where the source
names them). -/
inductive RunningMessage where
  | TaskCheckpointEvent (c : TaskCheckpointEventMsg)
  | TaskCheckpointFinished (c : TaskCheckpointFinishedMsg)
  | TaskFinished (worker_id : Nat) (time : Nat) (node_id : Nat) (subtask_index : Nat)
  | TaskFailed (worker_id : Nat) (node_id : Nat) (subtask_index : Nat) (reason : String)
  | WorkerHeartbeat (worker_id : Nat) (time : Nat)
  | WorkerFinished (worker_id : Nat)
deriving DecidableEq

/-- Update the first binding of a key in an association list (HashMap
`get_mut`); an absent key leaves the list unchanged (the warn branches). -/
def updateAssoc {α β : Type} [DecidableEq α] :
    List (α × β) → α → (β → β) → List (α × β)
  | [], _, _ => []
  | (k, v) :: rest, key, f =>
    if k = key then (k, f v) :: rest else (k, v) :: updateAssoc rest key f

/-- The per-message mutation of `RunningJobModel::handle_message`
(job_controller/mod.rs lines 196-332), before the end-of-job check. -/
def RunningJobModel.handle_message_inner (m : RunningJobModel) (msg : RunningMessage)
    (env : Env) : Except String (RunningJobModel × List Effect) :=
  match msg with
  | .TaskCheckpointEvent c =>
    match m.checkpoint_state with
    | some checkpointStateVal =>
      if c.epoch ≠ m.epoch then
        -- warn: checkpoint event for wrong epoch; dropped
        .ok (m, [])
      else
        match checkpointStateVal with
        | .Checkpointing checkpoint_state =>
          let m2 := { m with checkpoint_state := (
            some (.Checkpointing (checkpoint_state.checkpoint_event c))) }
          .ok (m2, m2.update_db_effects)
        | .Committing committing_state =>
          if c.event_type = TaskCheckpointEventType.FinishedCommit then
            let m2 := { m with checkpoint_state := (
              some (.Committing (committing_state.subtask_committed c.operator_id c.subtask_index))) }
            let mc := m2.compact_state env
            .ok (mc.1, mc.2 ++ mc.1.update_db_effects)
          else
            -- warn: unexpected checkpoint event type
            .ok (m, m.update_db_effects)
    | none =>
      -- debug: checkpoint event but not checkpointing; dropped
      .ok (m, [])
  | .TaskCheckpointFinished c =>
    match m.checkpoint_state with
    | some checkpointStateVal =>
      if c.epoch ≠ m.epoch then
        -- warn: checkpoint finished for wrong epoch; dropped
        .ok (m, [])
      else
        match checkpointStateVal with
        | .Checkpointing checkpoint_state =>
          let cs2 := checkpoint_state.checkpoint_finished c
          let m2 := { m with checkpoint_state := some (.Checkpointing cs2) }
          let m3 :=
            if cs2.done then
              { m2 with checkpoint_spans := (finishFirstSpan m2.checkpoint_spans
                  JobCheckpointEventType.CheckpointingOperators env.now) }
            else m2
          .ok (m3, m3.update_db_effects)
        | .Committing _ =>
          .error "Received checkpoint finished but not checkpointing"
    | none =>
      -- warn: checkpoint finished but not checkpointing; dropped
      .ok (m, [])
  | .TaskFinished _ _ node_id subtask_index =>
    .ok ({ m with tasks := (
      updateAssoc m.tasks (node_id, subtask_index) (fun _ => TaskState.Finished)) }, [])
  | .TaskFailed _ node_id subtask_index reason =>
    .ok ({ m with tasks := (
      updateAssoc m.tasks (node_id, subtask_index) (fun _ => TaskState.Failed reason)) }, [])
  | .WorkerHeartbeat worker_id time =>
    .ok ({ m with workers := (
      updateAssoc m.workers worker_id (fun w => { w with last_heartbeat := time })) }, [])
  | .WorkerFinished worker_id =>
    .ok ({ m with workers := (
      updateAssoc m.workers worker_id (fun w => { w with state := WorkerState.Stopped })) }, [])

/-- Source `RunningJobModel::handle_message` (job_controller/mod.rs lines 196-352):
the per-message mutation followed by the end-of-job check (lines 334-349): if
the job is Running, all tasks Finished, and no checkpoint in flight, send
`job_finished()` to every worker and transition to Stopped. -/
def RunningJobModel.handle_message (m : RunningJobModel) (msg : RunningMessage) (env : Env) :
    Except String (RunningJobModel × List Effect) :=
  match m.handle_message_inner msg env with
  | .error e => .error e
  | .ok (m2, effs) =>
    if m2.state == JobState.Running && m2.all_tasks_finished && m2.checkpoint_state.isNone then
      .ok ({ m2 with state := JobState.Stopped },
        effs ++ m2.workers.map (fun w => Effect.JobFinishedRpc w.2.id))
    else
      .ok (m2, effs)

/-- Modelled from the spec: `CheckpointState::new(job_id, checkpoint_id,
epoch, min_epoch, program)` (arroyo-state, not under src/) — a fresh
Checkpointing coordinator with the program's operators, nothing reported and
no commit work collected yet. -/
def CheckpointState.new (m : RunningJobModel) (checkpoint_id : String) : CheckpointState :=
  { checkpoint_id := checkpoint_id
    operators := m.program_operators
    finished_operators := []
    events := []
    committing :=
      { checkpoint_id := checkpoint_id, required := [], acked := [], committing_data := [] } }

/-- Source `RunningJobModel::start_checkpoint` (job_controller/mod.rs lines 354-411):
increment the epoch, clear spans, open the Checkpointing and
CheckpointingOperators spans, issue `checkpoint(...)` to every worker with
join-all semantics, generate a checkpoint id, persist the new InProgress row
and install a fresh Checkpointing coordinator. -/
def RunningJobModel.start_checkpoint (m : RunningJobModel) (organization_id : String)
    (then_stop : Bool) (env : Env) : Except String (RunningJobModel × List Effect) :=
  let m1 := { m with epoch := m.epoch + 1 }
  let m2 := { m1 with checkpoint_spans := [] }
  let m3 := m2.start_or_get_span JobCheckpointEventType.Checkpointing env.now
  let m4 := m3.start_or_get_span JobCheckpointEventType.CheckpointingOperators env.now
  let rpcs := m4.workers.map (fun w =>
    Effect.CheckpointRpc w.2.id m4.epoch env.now m4.min_epoch then_stop false)
  -- try_join_all: any single RPC failure aborts the whole call
  if m4.workers.all (fun w => env.rpc_ok w.2.id) then
    let checkpoint_id := env.fresh_checkpoint_id
    let effs := rpcs ++ [Effect.CreateCheckpointRow checkpoint_id organization_id m4.job_id
      m4.epoch m4.min_epoch env.now DbCheckpointState.inprogress]
    let st := CheckpointState.new m4 checkpoint_id
    .ok ({ m4 with checkpoint_state := some (.Checkpointing st) }, effs)
  else
    .error "checkpoint rpc failed"

/-- Source `RunningJobModel::finish_checkpoint_if_done` (job_controller/mod.rs lines
465-549).  The `unwrap` on an absent coordination state is modelled as an
error. -/
def RunningJobModel.finish_checkpoint_if_done (m : RunningJobModel) (env : Env) :
    Except String (RunningJobModel × List Effect) :=
  match m.checkpoint_state with
  | none => .error "checkpoint_state unwrap on None"
  | some stateVal =>
    if stateVal.done then
      -- self.checkpoint_state.take()
      let m0 := { m with checkpoint_state := none }
      match stateVal with
      | .Checkpointing checkpointing =>
        let m1 := m0.start_or_get_span JobCheckpointEventType.WritingMetadata env.now
        -- checkpointing.write_metadata()
        let effs0 := [Effect.WriteMetadata checkpointing.checkpoint_id]
        -- metadata_span.finish()
        let m2 := { m1 with checkpoint_spans := (finishFirstSpan m1.checkpoint_spans
          JobCheckpointEventType.WritingMetadata env.now) }
        let committing_state := checkpointing.committing_state
        if committing_state.done then
          -- shortcut if committing is unnecessary
          let m3 := m2.finish_span JobCheckpointEventType.Checkpointing env.now
          let effs1 := effs0 ++ [Effect.UpdateCheckpointRow checkpointing.checkpoint_id
            (some env.now) DbCheckpointState.ready]
          let m4 := { m3 with last_checkpoint := env.now, checkpoint_state := none }
          let (m5, compactEffs) := m4.compact_state env
          .ok (m5, effs1 ++ compactEffs ++ [Effect.NotifyDb])
        else
          let effs1 := effs0 ++ [Effect.UpdateCheckpointRow checkpointing.checkpoint_id
            none DbCheckpointState.committing]
          let m3 := { m2 with checkpoint_state := some (.Committing committing_state) }
          let m4 := m3.start_or_get_span JobCheckpointEventType.Committing env.now
          .ok (m4, effs1 ++ m4.workers.map (fun w =>
            Effect.CommitRpc w.2.id m4.epoch committing_state.committing_data))
      | .Committing committing =>
        let m1 := m0.finish_span JobCheckpointEventType.Committing env.now
        let m2 := m1.finish_span JobCheckpointEventType.Checkpointing env.now
        let effs := [Effect.CommitCheckpointRow committing.checkpoint_id env.now]
        let m3 := { m2 with last_checkpoint := env.now, checkpoint_state := none }
        .ok (m3, effs ++ [Effect.NotifyDb])
    else
      .ok (m, [])

/-! ## JobController -/

/-- The background cleanup task handle (`JoinHandle<anyhow::Result<u32>>`):
whether it has completed, and with which result (the new min epoch, or a
failure/panic). -/
structure CleanupTask where
  finished : Bool
  result : Except String Nat

/-- Source `JobController` from job_controller/mod.rs, with the configuration fields
the verified operations consult. -/
structure JobController where
  organization_id : String
  checkpoint_interval : Nat
  model : RunningJobModel
  cleanup_task : Option CleanupTask

/-- Source `ControllerProgress` from job_controller/mod.rs. -/
inductive ControllerProgress where
  | Continue
  | Finishing
deriving DecidableEq

/-- Source `JobController::checkpoint` (job_controller/mod.rs lines 873-882): start a
checkpoint if none is in flight; the returned Bool reports whether one was
started. -/
def JobController.checkpoint (jc : JobController) (then_stop : Bool) (env : Env) :
    Except String (JobController × Bool × List Effect) :=
  if jc.model.checkpoint_state.isNone then
    match jc.model.start_checkpoint jc.organization_id then_stop env with
    | .error e => .error e
    | .ok p => .ok ({ jc with model := p.1 }, true, p.2)
  else
    .ok (jc, false, [])

/-- The body of the background task spawned by `JobController::start_cleanup`
(job_controller/mod.rs lines 947-1000), as its ordered effect trace.
`min_epoch` is the model's min epoch clamped to at least 1; the row-drop query
is issued exactly when `min_epoch.checked_sub(CHECKPOINT_ROWS_TO_KEEP)` is
Some. -/
def JobController.start_cleanup_effects (jc : JobController) (new_min : Nat) : List Effect :=
  let min_epoch := max jc.model.min_epoch 1
  let cur_epoch := jc.model.epoch
  [Effect.LoadCheckpointMetadata cur_epoch,
   Effect.MarkCompacting min_epoch new_min,
   Effect.CleanupCheckpoint min_epoch new_min,
   Effect.MarkCheckpointsCompacted new_min]
  ++ (if CHECKPOINT_ROWS_TO_KEEP ≤ min_epoch then
        [Effect.DropOldCheckpointRows (min_epoch - CHECKPOINT_ROWS_TO_KEEP)]
      else [])

/-- Step (c) of `JobController::progress`: reap a completed cleanup task
(job_controller/mod.rs lines 801-834). -/
def JobController.reap_cleanup (jc : JobController) : JobController × List Effect :=
  match jc.cleanup_task with
  | some t =>
    if t.finished then
      match t.result with
      | .ok min_epoch =>
        ({ jc with cleanup_task := none, model := { jc.model with min_epoch := min_epoch } }, [])
      | .error _ =>
        -- cleanup failed or panicked: wait a bit before trying again
        ({ jc with cleanup_task := none }, [Effect.SleepRetry])
    else (jc, [])
  | none => (jc, [])

/-- Step (d) of `JobController::progress`: spawn a cleanup task when needed
and idle (job_controller/mod.rs lines 836-840). -/
def JobController.spawn_cleanup (jc : JobController) : JobController × List Effect :=
  match jc.model.cleanup_needed with
  | some new_epoch =>
    if jc.cleanup_task.isNone && jc.model.checkpoint_state.isNone then
      ({ jc with cleanup_task := some { finished := false, result := .error "running" } },
       [Effect.StartCleanup new_epoch] ++ jc.start_cleanup_effects new_epoch)
    else (jc, [])
  | none => (jc, [])

/-- Step (e) of `JobController::progress`: drive an in-flight checkpoint, or
start one when the interval has elapsed and no cleanup is running
(job_controller/mod.rs lines 842-850). -/
def JobController.checkpoint_step (jc : JobController) (env : Env) :
    Except String (JobController × List Effect) :=
  if jc.model.checkpoint_state.isSome then
    match jc.model.finish_checkpoint_if_done env with
    | .error e => .error e
    | .ok p => .ok ({ jc with model := p.1 }, p.2)
  else if env.now - jc.model.last_checkpoint > jc.checkpoint_interval
      && jc.cleanup_task.isNone then
    match jc.checkpoint false env with
    | .error e => .error e
    | .ok p => .ok (p.1, p.2.2)
  else
    .ok (jc, [])

/-- Step (f) of `JobController::progress`: refresh metrics when the collection
interval has elapsed (job_controller/mod.rs lines 853-856). -/
def JobController.metrics_step (jc : JobController) (env : Env) : JobController × List Effect :=
  if env.now - jc.model.last_updated_metrics > env.collection_rate then
    ({ jc with model := { jc.model with last_updated_metrics := env.now } },
     [Effect.UpdateMetrics])
  else (jc, [])

/-- Source `JobController::progress` (job_controller/mod.rs lines 789-859). -/
def JobController.progress (jc : JobController) (env : Env) :
    Except String (JobController × ControllerProgress × List Effect) :=
  if jc.model.failed env then
    .error "worker failed"
  else if jc.model.any_finished_sources then
    .ok (jc, ControllerProgress.Finishing, [])
  else
    let r1 := jc.reap_cleanup
    let r2 := r1.1.spawn_cleanup
    match r2.1.checkpoint_step env with
    | .error e => .error e
    | .ok p =>
      let r4 := p.1.metrics_step env
      .ok (r4.1, ControllerProgress.Continue, r1.2 ++ r2.2 ++ p.2 ++ r4.2)

/-! ## REST pagination (arroyo-api/src/rest_utils.rs) -/

/-- Source `DEFAULT_ITEMS_PER_PAGE` from rest_utils.rs. -/
def DEFAULT_ITEMS_PER_PAGE : Nat := 10

/-- HTTP 400. -/
def BAD_REQUEST : Nat := 400

/-- Source `ErrorResp` from rest_utils.rs. -/
structure ErrorResp where
  status_code : Nat
  message : String
deriving DecidableEq

/-- Source `validate_pagination_params` (rest_utils.rs lines 145-163).  The u32
increment `limit.unwrap_or(DEFAULT_ITEMS_PER_PAGE) + 1` is modelled with
wrap-around arithmetic mod 2^32; inputs are u32 values (< 2^32). -/
def validate_pagination_params (starting_after : Option String) (limit : Option Nat) :
    Except ErrorResp (Option String × Nat) :=
  match limit with
  | some l =>
    if l < 1 then
      .error { status_code := BAD_REQUEST, message := "Limit must be greater than 0" }
    else
      .ok (starting_after, (l + 1) % U32_MOD)
  | none =>
    .ok (starting_after, (DEFAULT_ITEMS_PER_PAGE + 1) % U32_MOD)

/-! ## Running state error handling (states/running.rs) -/

/-- The outcome of the Running state's progress-error branch. -/
inductive RunningErrorOutcome where
  | Fatal
  | Recovering
deriving DecidableEq

/-- The progress-error branch of `Running::next` (states/running.rs lines
111-135): preview jobs (ttl set) fail fatally; otherwise a finite restart
budget that is exhausted fails fatally; otherwise the job transitions to
Recovering.  Restart counts are i32 values, modelled as Int. -/
def running_on_progress_error (ttl_is_some : Bool) (allowed_restarts : Int)
    (restarts : Int) : RunningErrorOutcome :=
  if ttl_is_some then
    RunningErrorOutcome.Fatal
  else if allowed_restarts ≠ -1 && restarts ≥ allowed_restarts then
    RunningErrorOutcome.Fatal
  else
    RunningErrorOutcome.Recovering

/-! ## Span bookkeeping lemmas -/

/-- A span for the event exists and is closed at time t. -/
def spanClosedAt (spans : List JobCheckpointSpan) (e : JobCheckpointEventType) (t : Nat) :
    Prop :=
  ∃ s, findSpan spans e = some s ∧ s.finish_time = some t

/-- The first span for the event is a freshly opened span starting at t. -/
def spanOpenAt (spans : List JobCheckpointSpan) (e : JobCheckpointEventType) (t : Nat) :
    Prop :=
  findSpan spans e = some (JobCheckpointSpan.now e t)

theorem findSpan_cons (s : JobCheckpointSpan) (rest : List JobCheckpointSpan)
    (e : JobCheckpointEventType) :
    findSpan (s :: rest) e = if s.event = e then some s else findSpan rest e := by
  by_cases h : s.event = e
  · simp [findSpan, List.find?_cons_of_pos, h]
  · simp [findSpan, List.find?_cons_of_neg, h]

theorem finishFirstSpan_cons (s : JobCheckpointSpan) (rest : List JobCheckpointSpan)
    (e : JobCheckpointEventType) (t : Nat) :
    finishFirstSpan (s :: rest) e t =
      if s.event = e then { s with finish_time := some t } :: rest
      else s :: finishFirstSpan rest e t := by
  by_cases h : s.event = e <;> simp [finishFirstSpan, h]

theorem findSpan_finishFirstSpan_self (spans : List JobCheckpointSpan)
    (e : JobCheckpointEventType) (t : Nat) :
    findSpan (finishFirstSpan spans e t) e =
      (findSpan spans e).map (fun s => { s with finish_time := some t }) := by
  induction spans with
  | nil => rfl
  | cons s rest ih =>
    by_cases h : s.event = e
    · simp [finishFirstSpan_cons, findSpan_cons, h]
    · simp [finishFirstSpan_cons, findSpan_cons, h, ih]

theorem findSpan_finishFirstSpan_other (spans : List JobCheckpointSpan)
    (e e2 : JobCheckpointEventType) (t : Nat) (hne : e2 ≠ e) :
    findSpan (finishFirstSpan spans e t) e2 = findSpan spans e2 := by
  induction spans with
  | nil => rfl
  | cons s rest ih =>
    by_cases h : s.event = e
    · have h2 : ¬s.event = e2 := by rw [h]; exact fun hh => hne hh.symm
      have h3 : ¬e = e2 := fun hh => hne hh.symm
      simp [finishFirstSpan_cons, findSpan_cons, h, h2, h3]
    · by_cases h2 : s.event = e2
      · simp [finishFirstSpan_cons, findSpan_cons, h, h2, hne]
      · simp [finishFirstSpan_cons, findSpan_cons, h, h2, ih]

theorem findSpan_append_new_other (spans : List JobCheckpointSpan)
    (e e2 : JobCheckpointEventType) (t : Nat) (hne : e2 ≠ e) :
    findSpan (spans ++ [JobCheckpointSpan.now e t]) e2 = findSpan spans e2 := by
  induction spans with
  | nil =>
    have h3 : ¬e = e2 := fun hh => hne hh.symm
    simp [findSpan_cons, JobCheckpointSpan.now, h3, findSpan]
  | cons s rest ih =>
    by_cases h : s.event = e2
    · simp [List.cons_append, findSpan_cons, h]
    · simp [List.cons_append, findSpan_cons, h, ih]

theorem findSpan_append_new_self (spans : List JobCheckpointSpan)
    (e : JobCheckpointEventType) (t : Nat) (h : findSpan spans e = none) :
    findSpan (spans ++ [JobCheckpointSpan.now e t]) e = some (JobCheckpointSpan.now e t) := by
  induction spans with
  | nil => simp [findSpan_cons, JobCheckpointSpan.now, findSpan]
  | cons s rest ih =>
    by_cases hs : s.event = e
    · rw [findSpan_cons] at h
      simp [hs] at h
    · rw [findSpan_cons] at h
      simp only [hs, if_false] at h
      simp [List.cons_append, findSpan_cons, hs, ih h]

theorem findSpan_none_of_any_false (spans : List JobCheckpointSpan)
    (e : JobCheckpointEventType) (h : spans.any (fun s => s.event == e) = false) :
    findSpan spans e = none := by
  induction spans with
  | nil => rfl
  | cons s rest ih =>
    simp only [List.any_cons, Bool.or_eq_false_iff, beq_eq_false_iff_ne, ne_eq] at h
    simp [findSpan_cons, h.1, ih h.2]

theorem findSpan_isSome_of_any (spans : List JobCheckpointSpan)
    (e : JobCheckpointEventType) (h : spans.any (fun s => s.event == e) = true) :
    (findSpan spans e).isSome = true := by
  induction spans with
  | nil => simp at h
  | cons s rest ih =>
    by_cases hs : s.event = e
    · simp [findSpan_cons, hs]
    · simp only [List.any_cons, Bool.or_eq_true, beq_iff_eq, hs, false_or] at h
      simp [findSpan_cons, hs, ih h]

theorem findSpan_startOrGetSpans_other (spans : List JobCheckpointSpan)
    (e e2 : JobCheckpointEventType) (t : Nat) (hne : e2 ≠ e) :
    findSpan (startOrGetSpans spans e t) e2 = findSpan spans e2 := by
  unfold startOrGetSpans
  by_cases h : spans.any (fun s => s.event == e) = true
  · rw [if_pos h]
  · rw [if_neg h]
    exact findSpan_append_new_other spans e e2 t hne

theorem findSpan_startOrGetSpans_isSome (spans : List JobCheckpointSpan)
    (e : JobCheckpointEventType) (t : Nat) :
    (findSpan (startOrGetSpans spans e t) e).isSome = true := by
  unfold startOrGetSpans
  by_cases h : spans.any (fun s => s.event == e) = true
  · rw [if_pos h]
    exact findSpan_isSome_of_any spans e h
  · rw [if_neg h]
    rw [findSpan_append_new_self spans e t
      (findSpan_none_of_any_false spans e (by simpa using h))]
    rfl

theorem spanClosedAt_finish (spans : List JobCheckpointSpan) (e : JobCheckpointEventType)
    (t : Nat) :
    spanClosedAt (finishFirstSpan (startOrGetSpans spans e t) e t) e t := by
  have h := findSpan_startOrGetSpans_isSome spans e t
  obtain ⟨s, hs⟩ := Option.isSome_iff_exists.mp h
  refine ⟨{ s with finish_time := some t }, ?_, rfl⟩
  rw [findSpan_finishFirstSpan_self, hs]
  rfl

theorem spanClosedAt_finishFirstSpan_other (spans : List JobCheckpointSpan)
    (e e2 : JobCheckpointEventType) (t t2 : Nat) (hne : e2 ≠ e)
    (h : spanClosedAt spans e2 t2) :
    spanClosedAt (finishFirstSpan spans e t) e2 t2 := by
  obtain ⟨s, hs, hf⟩ := h
  exact ⟨s, by rw [findSpan_finishFirstSpan_other spans e e2 t hne]; exact hs, hf⟩

theorem spanClosedAt_startOrGetSpans_other (spans : List JobCheckpointSpan)
    (e e2 : JobCheckpointEventType) (t t2 : Nat) (hne : e2 ≠ e)
    (h : spanClosedAt spans e2 t2) :
    spanClosedAt (startOrGetSpans spans e t) e2 t2 := by
  obtain ⟨s, hs, hf⟩ := h
  exact ⟨s, by rw [findSpan_startOrGetSpans_other spans e e2 t hne]; exact hs, hf⟩

theorem findSpan_none_startOrGetSpans (spans : List JobCheckpointSpan)
    (e : JobCheckpointEventType) (t : Nat) (h : findSpan spans e = none) :
    findSpan (startOrGetSpans spans e t) e = some (JobCheckpointSpan.now e t) := by
  unfold startOrGetSpans
  by_cases ha : spans.any (fun s => s.event == e) = true
  · exact absurd (findSpan_isSome_of_any spans e ha) (by simp [h])
  · rw [if_neg ha]
    exact findSpan_append_new_self spans e t h

/-! ## Concrete fixtures used by witnesses and counterexamples -/

/-- A minimal running-job model fixture. -/
def baseModel : RunningJobModel :=
  { job_id := "job1", state := JobState.Running, checkpoint_state := none, epoch := 0,
    min_epoch := 0, last_checkpoint := 0, workers := [], tasks := [], program_sources := [],
    program_operators := [], last_updated_metrics := 0, checkpoint_spans := [] }

/-- A concrete environment fixture: all worker RPCs succeed. -/
def envT : Env :=
  { now := 7, compaction_enabled := false, worker_heartbeat_timeout := 30,
    collection_rate := 5, rpc_ok := fun _ => true, fresh_checkpoint_id := "cp1" }

/-! ## Claim C6: cleanup_needed -/

/-- Claim C6: for every model with min_epoch ≤ epoch, cleanup_needed() returns
Some(epoch − 4) if and only if epoch − min_epoch > 4 (CHECKPOINTS_TO_KEEP) and
epoch is divisible by 2 (COMPACT_EVERY), and returns None otherwise. -/
theorem cleanup_needed_spec (m : RunningJobModel) (h : m.min_epoch ≤ m.epoch) :
    (∀ v, m.cleanup_needed = some v ↔
      (CHECKPOINTS_TO_KEEP < m.epoch - m.min_epoch ∧ m.epoch % COMPACT_EVERY = 0 ∧
        v = m.epoch - CHECKPOINTS_TO_KEEP)) ∧
    (m.cleanup_needed = none ↔
      ¬(CHECKPOINTS_TO_KEEP < m.epoch - m.min_epoch ∧ m.epoch % COMPACT_EVERY = 0)) := by
  unfold RunningJobModel.cleanup_needed
  by_cases h1 : CHECKPOINTS_TO_KEEP < m.epoch - m.min_epoch
  · by_cases h2 : m.epoch % COMPACT_EVERY = 0
    · rw [if_pos (by simp only [Bool.and_eq_true, decide_eq_true_eq, beq_iff_eq]; exact ⟨h1, h2⟩)]
      constructor
      · intro v
        constructor
        · intro he
          exact ⟨h1, h2, (Option.some.inj he).symm⟩
        · rintro ⟨-, -, rfl⟩
          rfl
      · constructor
        · intro he
          cases he
        · intro hc
          exact absurd ⟨h1, h2⟩ hc
    · rw [if_neg (by simp only [Bool.and_eq_true, decide_eq_true_eq, beq_iff_eq]; exact fun hc => h2 hc.2)]
      constructor
      · intro v
        constructor
        · intro he
          cases he
        · rintro ⟨-, hh, -⟩
          exact absurd hh h2
      · constructor
        · intro _
          exact fun hc => h2 hc.2
        · intro _
          rfl
  · rw [if_neg (by simp only [Bool.and_eq_true, decide_eq_true_eq, beq_iff_eq]; exact fun hc => h1 hc.1)]
    constructor
    · intro v
      constructor
      · intro he
        cases he
      · rintro ⟨hh, -, -⟩
        exact absurd hh h1
    · constructor
      · intro _
        exact fun hc => h1 hc.1
      · intro _
        rfl

/-- Witness for C6 at the boundary inputs named by the claim: (epoch=6,
min_epoch=1) yields Some 2; (epoch=4, min_epoch=0) and (epoch=5, min_epoch=0)
yield None. -/
theorem cleanup_needed_spec_witness :
    ({ baseModel with epoch := 6, min_epoch := 1 } : RunningJobModel).cleanup_needed =
        some 2 ∧
    ({ baseModel with epoch := 4, min_epoch := 0 } : RunningJobModel).cleanup_needed = none ∧
    ({ baseModel with epoch := 5, min_epoch := 0 } : RunningJobModel).cleanup_needed = none := by
  refine ⟨?_, by decide, by decide⟩
  exact ((cleanup_needed_spec { baseModel with epoch := 6, min_epoch := 1 }
    (by decide)).1 2).mpr (by decide)

/-! ## Claim C8: Running progress-error handling -/

/-- Claim C8: when progress() errors while Running, a preview job (ttl set)
fails fatally; otherwise a finite restart budget (allowed_restarts ≠ −1) that
is already met or exceeded fails fatally; in every other case the job
transitions to Recovering. -/
theorem running_progress_error_spec (ttl_is_some : Bool) (allowed_restarts restarts : Int) :
    (running_on_progress_error ttl_is_some allowed_restarts restarts =
        RunningErrorOutcome.Fatal ↔
      (ttl_is_some = true ∨ (allowed_restarts ≠ -1 ∧ allowed_restarts ≤ restarts))) ∧
    (running_on_progress_error ttl_is_some allowed_restarts restarts =
        RunningErrorOutcome.Recovering ↔
      (ttl_is_some = false ∧ (allowed_restarts = -1 ∨ restarts < allowed_restarts))) := by
  cases ttl_is_some <;>
    by_cases h1 : allowed_restarts = -1 <;> by_cases h2 : allowed_restarts ≤ restarts <;>
      simp [running_on_progress_error, h1, h2] <;> omega

/-! ## Claim C9: validate_pagination_params -/

/-- Counterexample to C9 as stated: at limit = u32::MAX (= 2^32 − 1) the
validation passes but the returned fetch-limit wraps to 0, which is not
limit + 1. -/
theorem validate_pagination_u32max_cex :
    1 ≤ U32_MOD - 1 ∧
    validate_pagination_params none (some (U32_MOD - 1)) = .ok (none, 0) ∧
    (0 : Nat) ≠ (U32_MOD - 1) + 1 := by
  refine ⟨by decide, ?_, by decide⟩
  rfl

/-- Claim C9 (amended): validate_pagination_params returns a BAD_REQUEST
error iff limit = Some 0; for limit = None it returns Ok with starting_after
unchanged and fetch-limit 11; for Some l with 1 ≤ l and l + 1 < 2^32 it
returns Ok((starting_after, l + 1)); at l = 2^32 − 1 the fetch-limit wraps to
0 instead of l + 1. -/
theorem validate_pagination_params_spec (starting_after : Option String)
    (limit : Option Nat) :
    ((∃ e, validate_pagination_params starting_after limit = .error e ∧
        e.status_code = BAD_REQUEST) ↔ limit = some 0) ∧
    (limit = none →
      validate_pagination_params starting_after limit = .ok (starting_after, 11)) ∧
    (∀ l, limit = some l → 1 ≤ l → l + 1 < U32_MOD →
      validate_pagination_params starting_after limit = .ok (starting_after, l + 1)) ∧
    (limit = some (U32_MOD - 1) →
      validate_pagination_params starting_after limit = .ok (starting_after, 0)) := by
  refine ⟨?_, ?_, ?_, ?_⟩
  · cases limit with
    | none => simp [validate_pagination_params]
    | some l =>
      by_cases hl : l < 1
      · have : l = 0 := by omega
        subst this
        simp [validate_pagination_params, BAD_REQUEST]
      · simp [validate_pagination_params, hl]
        omega
  · intro h
    subst h
    rfl
  · intro l hl h1 hlt
    subst hl
    have hnl : ¬l < 1 := by omega
    simp [validate_pagination_params, hnl, Nat.mod_eq_of_lt hlt]
  · intro h
    subst h
    rfl

/-- Witness for C9 (amended) at limit = Some 5: the fetch-limit is 6. -/
theorem validate_pagination_params_spec_witness :
    validate_pagination_params (some "k") (some 5) = .ok (some "k", 6) := by
  exact (validate_pagination_params_spec (some "k") (some 5)).2.2.1 5 rfl
    (by decide) (by decide)

/-! ## Claim C10: pagination overflow at u32::MAX -/

/-- Claim C10: every in-range limit ≥ 1 passes validation (no input is
rejected for being too large), and at limit = u32::MAX the computed
fetch-limit (limit + 1 under wrap-around mod 2^32) is 0, not a value greater
than the requested limit. -/
theorem validate_pagination_overflow_spec :
    (∀ (s : Option String) (l : Nat), 1 ≤ l → l < U32_MOD →
      validate_pagination_params s (some l) = .ok (s, (l + 1) % U32_MOD)) ∧
    validate_pagination_params none (some (U32_MOD - 1)) =
      .ok (none, ((U32_MOD - 1) + 1) % U32_MOD) ∧
    ((U32_MOD - 1) + 1) % U32_MOD = 0 ∧
    ¬((U32_MOD - 1) < ((U32_MOD - 1) + 1) % U32_MOD) := by
  refine ⟨?_, rfl, by decide, by decide⟩
  intro s l h1 _
  have hnl : ¬l < 1 := by omega
  simp [validate_pagination_params, hnl]

/-- Witness for C10 at l = u32::MAX: validation passes and the result wraps. -/
theorem validate_pagination_overflow_spec_witness :
    validate_pagination_params (some "x") (some (U32_MOD - 1)) =
      .ok (some "x", ((U32_MOD - 1) + 1) % U32_MOD) := by
  exact validate_pagination_overflow_spec.1 (some "x") (U32_MOD - 1) (by decide) (by decide)

/-! ## Claim C7: dropping old checkpoint rows during cleanup -/

/-- A controller fixture whose model sits exactly at min_epoch = 100. -/
def jcMin100 : JobController :=
  { organization_id := "org1", checkpoint_interval := 10,
    model := { baseModel with min_epoch := 100, epoch := 106 }, cleanup_task := none }

/-- Counterexample to C7 as stated: with min_epoch = 100 (so current_min =
100 ≤ CHECKPOINT_ROWS_TO_KEEP), the cleanup run does issue a row-drop query
(with threshold 0), contradicting the claim that no query is issued when
current_min ≤ 100. -/
theorem start_cleanup_rows_cex :
    max jcMin100.model.min_epoch 1 ≤ CHECKPOINT_ROWS_TO_KEEP ∧
    Effect.DropOldCheckpointRows 0 ∈ jcMin100.start_cleanup_effects 102 := by
  refine ⟨by decide, ?_⟩
  decide

/-- Claim C7 (amended): during a cleanup run, letting current_min be
min_epoch clamped to at least 1, a row-drop query with threshold
current_min − 100 is issued iff current_min ≥ 100 (the checked_sub
succeeds); for current_min < 100 no row-drop query is issued.  At
current_min = 100 the query is issued with threshold 0. -/
theorem start_cleanup_rows_spec (jc : JobController) (new_min : Nat) :
    ∀ b, Effect.DropOldCheckpointRows b ∈ jc.start_cleanup_effects new_min ↔
      (CHECKPOINT_ROWS_TO_KEEP ≤ max jc.model.min_epoch 1 ∧
        b = max jc.model.min_epoch 1 - CHECKPOINT_ROWS_TO_KEEP) := by
  intro b
  unfold JobController.start_cleanup_effects
  by_cases h : CHECKPOINT_ROWS_TO_KEEP ≤ max jc.model.min_epoch 1 <;>
    simp [h, eq_comm]

/-! ## Claim C2: start_checkpoint -/

/-- Claim C2: with no coordination state present, start_checkpoint increments
the epoch, clears the event spans, opens the Checkpointing and
CheckpointingOperators spans, sends checkpoint(epoch, timestamp, min_epoch,
then_stop, is_commit=false) to every worker before persisting the new
InProgress checkpoint row with a freshly generated id, and installs a fresh
Checkpointing coordination state; any single worker RPC failure makes the
whole call return an error (join-all semantics). -/
theorem start_checkpoint_spec (m : RunningJobModel) (org : String) (then_stop : Bool)
    (env : Env) (hpre : m.checkpoint_state = none) :
    (m.workers.all (fun w => env.rpc_ok w.2.id) = true →
      m.start_checkpoint org then_stop env = .ok
        ({ m with
            epoch := m.epoch + 1,
            checkpoint_spans := [
              JobCheckpointSpan.now JobCheckpointEventType.Checkpointing env.now,
              JobCheckpointSpan.now JobCheckpointEventType.CheckpointingOperators env.now],
            checkpoint_state := (some (CheckpointingOrCommittingState.Checkpointing
              (CheckpointState.new m env.fresh_checkpoint_id))) },
          m.workers.map (fun w => Effect.CheckpointRpc w.2.id (m.epoch + 1) env.now
            m.min_epoch then_stop false)
          ++ [Effect.CreateCheckpointRow env.fresh_checkpoint_id org m.job_id (m.epoch + 1)
            m.min_epoch env.now DbCheckpointState.inprogress])) ∧
    (∀ w ∈ m.workers, env.rpc_ok w.2.id = false →
      m.start_checkpoint org then_stop env = .error "checkpoint rpc failed") := by
  constructor
  · intro hall
    simp only [RunningJobModel.start_checkpoint]
    split
    · rfl
    · next hfalse => exact absurd hall hfalse
  · intro w hw hfail
    simp only [RunningJobModel.start_checkpoint]
    split
    · next htrue =>
        rw [List.all_eq_true] at htrue
        have hww := htrue w hw
        rw [hfail] at hww
        cases hww
    · rfl

/-- A worker fixture and a model with one connected worker. -/
def wStatus1 : WorkerStatus := { id := 1, last_heartbeat := 0, state := WorkerState.Running }

/-- A model fixture with a single worker. -/
def mOneWorker : RunningJobModel := { baseModel with workers := [(1, wStatus1)] }

/-- Witness for C2: a concrete one-worker model where all RPCs succeed. -/
theorem start_checkpoint_spec_witness :
    mOneWorker.start_checkpoint "org1" false envT = .ok
      ({ mOneWorker with
          epoch := 1,
          checkpoint_spans := [
            JobCheckpointSpan.now JobCheckpointEventType.Checkpointing 7,
            JobCheckpointSpan.now JobCheckpointEventType.CheckpointingOperators 7],
          checkpoint_state := (some (CheckpointingOrCommittingState.Checkpointing
            (CheckpointState.new mOneWorker "cp1"))) },
        [Effect.CheckpointRpc 1 1 7 0 false false,
         Effect.CreateCheckpointRow "cp1" "org1" "job1" 1 0 7 DbCheckpointState.inprogress]) := by
  have h := (start_checkpoint_spec mOneWorker "org1" false envT rfl).1 rfl
  exact h

/-! ## Claim C1: finish_checkpoint_if_done -/

/-- Claim C1: with a coordination state present and done, in the
Checkpointing phase finish_checkpoint_if_done writes metadata (opening and
closing the WritingMetadata span); if the derived committing state is done it
closes the Checkpointing span, persists the row as Ready with finish-time
now, clears the coordination state, resets last_checkpoint to now, invokes
compact_state and notifies the DB; otherwise it persists the row as
Committing, installs the Committing coordination state, opens the Committing
span and issues commit(epoch, committing_data) to every worker.  In the
Committing phase it closes the Committing and Checkpointing spans, persists
the commit-checkpoint with finish-time now, clears the coordination state,
resets last_checkpoint to now and notifies the DB. -/
theorem finish_checkpoint_if_done_spec (m : RunningJobModel) (env : Env)
    (ck : CheckpointState) (co : CommittingState) :
    (m.checkpoint_state = some (CheckpointingOrCommittingState.Checkpointing ck) →
      ck.done = true →
      ((ck.committing_state.done = true →
        ∃ m2, m.finish_checkpoint_if_done env = .ok (m2,
            [Effect.WriteMetadata ck.checkpoint_id,
             Effect.UpdateCheckpointRow ck.checkpoint_id (some env.now) DbCheckpointState.ready]
            ++ (if env.compaction_enabled then [Effect.CompactState] else [])
            ++ [Effect.NotifyDb]) ∧
          m2.checkpoint_state = none ∧ m2.last_checkpoint = env.now ∧
          spanClosedAt m2.checkpoint_spans JobCheckpointEventType.WritingMetadata env.now ∧
          spanClosedAt m2.checkpoint_spans JobCheckpointEventType.Checkpointing env.now) ∧
       (ck.committing_state.done = false →
        findSpan m.checkpoint_spans JobCheckpointEventType.Committing = none →
        ∃ m2, m.finish_checkpoint_if_done env = .ok (m2,
            [Effect.WriteMetadata ck.checkpoint_id,
             Effect.UpdateCheckpointRow ck.checkpoint_id none DbCheckpointState.committing]
            ++ m.workers.map (fun w =>
              Effect.CommitRpc w.2.id m.epoch ck.committing_state.committing_data)) ∧
          m2.checkpoint_state = some (CheckpointingOrCommittingState.Committing
            ck.committing_state) ∧
          m2.last_checkpoint = m.last_checkpoint ∧
          spanOpenAt m2.checkpoint_spans JobCheckpointEventType.Committing env.now ∧
          spanClosedAt m2.checkpoint_spans JobCheckpointEventType.WritingMetadata env.now))) ∧
    (m.checkpoint_state = some (CheckpointingOrCommittingState.Committing co) →
      co.done = true →
      ∃ m2, m.finish_checkpoint_if_done env = .ok (m2,
          [Effect.CommitCheckpointRow co.checkpoint_id env.now, Effect.NotifyDb]) ∧
        m2.checkpoint_state = none ∧ m2.last_checkpoint = env.now ∧
        spanClosedAt m2.checkpoint_spans JobCheckpointEventType.Committing env.now ∧
        spanClosedAt m2.checkpoint_spans JobCheckpointEventType.Checkpointing env.now) := by
  constructor
  · intro hcs hdone
    constructor
    · intro hcd
      cases henv : env.compaction_enabled with
      | false =>
        simp only [RunningJobModel.finish_checkpoint_if_done, hcs,
          CheckpointingOrCommittingState.done, hdone, if_true, hcd,
          RunningJobModel.compact_state, henv, Bool.not_false,
          RunningJobModel.finish_span, RunningJobModel.start_or_get_span]
        refine ⟨_, rfl, rfl, rfl, ?_, ?_⟩
        · exact spanClosedAt_finishFirstSpan_other _ JobCheckpointEventType.Checkpointing
            JobCheckpointEventType.WritingMetadata _ _ (by decide)
            (spanClosedAt_startOrGetSpans_other _ JobCheckpointEventType.Checkpointing
              JobCheckpointEventType.WritingMetadata _ _ (by decide)
              (spanClosedAt_finish _ _ _))
        · exact spanClosedAt_finish _ _ _
      | true =>
        simp only [RunningJobModel.finish_checkpoint_if_done, hcs,
          CheckpointingOrCommittingState.done, hdone, if_true, hcd,
          RunningJobModel.compact_state, henv, Bool.not_true,
          RunningJobModel.finish_span, RunningJobModel.start_or_get_span]
        refine ⟨_, rfl, rfl, rfl, ?_, ?_⟩
        · exact spanClosedAt_finishFirstSpan_other _ JobCheckpointEventType.Compacting
            JobCheckpointEventType.WritingMetadata _ _ (by decide)
            (spanClosedAt_startOrGetSpans_other _ JobCheckpointEventType.Compacting
              JobCheckpointEventType.WritingMetadata _ _ (by decide)
              (spanClosedAt_startOrGetSpans_other _ JobCheckpointEventType.Compacting
                JobCheckpointEventType.WritingMetadata _ _ (by decide)
                (spanClosedAt_finishFirstSpan_other _ JobCheckpointEventType.Checkpointing
                  JobCheckpointEventType.WritingMetadata _ _ (by decide)
                  (spanClosedAt_startOrGetSpans_other _ JobCheckpointEventType.Checkpointing
                    JobCheckpointEventType.WritingMetadata _ _ (by decide)
                    (spanClosedAt_finish _ _ _)))))
        · exact spanClosedAt_finishFirstSpan_other _ JobCheckpointEventType.Compacting
            JobCheckpointEventType.Checkpointing _ _ (by decide)
            (spanClosedAt_startOrGetSpans_other _ JobCheckpointEventType.Compacting
              JobCheckpointEventType.Checkpointing _ _ (by decide)
              (spanClosedAt_startOrGetSpans_other _ JobCheckpointEventType.Compacting
                JobCheckpointEventType.Checkpointing _ _ (by decide)
                (spanClosedAt_finish _ _ _)))
    · intro hcd hnone
      simp only [RunningJobModel.finish_checkpoint_if_done, hcs,
        CheckpointingOrCommittingState.done, hdone, if_true, hcd,
        RunningJobModel.finish_span, RunningJobModel.start_or_get_span]
      refine ⟨_, rfl, rfl, rfl, ?_, ?_⟩
      · unfold spanOpenAt
        rw [findSpan_none_startOrGetSpans]
        rw [findSpan_finishFirstSpan_other _ JobCheckpointEventType.WritingMetadata
          JobCheckpointEventType.Committing _ (by decide),
          findSpan_startOrGetSpans_other _ JobCheckpointEventType.WritingMetadata
          JobCheckpointEventType.Committing _ (by decide)]
        exact hnone
      · exact spanClosedAt_startOrGetSpans_other _ JobCheckpointEventType.Committing
          JobCheckpointEventType.WritingMetadata _ _ (by decide)
          (spanClosedAt_finish _ _ _)
  · intro hcs hdone
    simp only [RunningJobModel.finish_checkpoint_if_done, hcs,
      CheckpointingOrCommittingState.done, hdone, if_true,
      RunningJobModel.finish_span, RunningJobModel.start_or_get_span]
    refine ⟨_, rfl, rfl, rfl, ?_, ?_⟩
    · exact spanClosedAt_finishFirstSpan_other _ JobCheckpointEventType.Checkpointing
        JobCheckpointEventType.Committing _ _ (by decide)
        (spanClosedAt_startOrGetSpans_other _ JobCheckpointEventType.Checkpointing
          JobCheckpointEventType.Committing _ _ (by decide)
          (spanClosedAt_finish _ _ _))
    · exact spanClosedAt_finish _ _ _

/-- A concrete Committing coordination state with no pending commit work. -/
def coDone : CommittingState :=
  { checkpoint_id := "cp1", required := [], acked := [], committing_data := [] }

/-- A concrete Checkpointing coordination state (used only to instantiate
binders). -/
def ckDummy : CheckpointState := CheckpointState.new baseModel "cp1"

/-- A model in the Committing phase with the commit fully acknowledged. -/
def mCommitDone : RunningJobModel :=
  { baseModel with checkpoint_state := (
      some (CheckpointingOrCommittingState.Committing coDone)) }

/-- Witness for C1 at a concrete Committing-phase model with the commit
acknowledged. -/
theorem finish_checkpoint_if_done_spec_witness :
    ∃ m2, mCommitDone.finish_checkpoint_if_done envT = .ok (m2,
        [Effect.CommitCheckpointRow "cp1" 7, Effect.NotifyDb]) ∧
      m2.checkpoint_state = none ∧ m2.last_checkpoint = 7 ∧
      spanClosedAt m2.checkpoint_spans JobCheckpointEventType.Committing 7 ∧
      spanClosedAt m2.checkpoint_spans JobCheckpointEventType.Checkpointing 7 :=
  (finish_checkpoint_if_done_spec mCommitDone envT ckDummy coDone).2 rfl rfl

/-! ## Frame lemmas for handle_message -/

theorem job_finished_not_mem_update_db (m : RunningJobModel) (wid : Nat) :
    Effect.JobFinishedRpc wid ∉ m.update_db_effects := by
  unfold RunningJobModel.update_db_effects
  cases hcs : m.checkpoint_state with
  | none => simp
  | some cs => cases cs <;> simp

theorem job_finished_not_mem_compact (m : RunningJobModel) (env : Env) (wid : Nat) :
    Effect.JobFinishedRpc wid ∉ (m.compact_state env).2 := by
  unfold RunningJobModel.compact_state
  by_cases h : env.compaction_enabled <;> simp [h]

theorem compact_state_frame (m : RunningJobModel) (env : Env) :
    (m.compact_state env).1.state = m.state ∧
    (m.compact_state env).1.checkpoint_state = m.checkpoint_state ∧
    (m.compact_state env).1.workers = m.workers ∧
    (m.compact_state env).1.tasks = m.tasks := by
  unfold RunningJobModel.compact_state RunningJobModel.start_or_get_span
    RunningJobModel.finish_span
  by_cases h : env.compaction_enabled <;> simp [h]

theorem handle_message_inner_frame (m : RunningJobModel) (msg : RunningMessage) (env : Env)
    (m2 : RunningJobModel) (effs : List Effect)
    (h : m.handle_message_inner msg env = .ok (m2, effs)) :
    m2.state = m.state ∧ ∀ wid, Effect.JobFinishedRpc wid ∉ effs := by
  cases msg with
  | TaskCheckpointEvent c =>
    cases hcs : m.checkpoint_state with
    | none =>
      simp only [RunningJobModel.handle_message_inner, hcs, Except.ok.injEq,
        Prod.mk.injEq] at h
      obtain ⟨h1, h2⟩ := h
      subst h1
      subst h2
      exact ⟨rfl, by simp⟩
    | some cs =>
      by_cases he : c.epoch = m.epoch
      · cases cs with
        | Checkpointing ck =>
          simp only [RunningJobModel.handle_message_inner, hcs, he, ne_eq,
            not_true_eq_false, if_false, Except.ok.injEq, Prod.mk.injEq] at h
          obtain ⟨h1, h2⟩ := h
          subst h1
          subst h2
          exact ⟨rfl, fun wid => job_finished_not_mem_update_db _ wid⟩
        | Committing co =>
          by_cases hev : c.event_type = TaskCheckpointEventType.FinishedCommit
          · simp only [RunningJobModel.handle_message_inner, hcs, he, ne_eq,
              not_true_eq_false, if_false, hev, if_true, Except.ok.injEq,
              Prod.mk.injEq] at h
            obtain ⟨h1, h2⟩ := h
            subst h1
            subst h2
            constructor
            · exact (compact_state_frame _ env).1
            · intro wid
              rw [List.mem_append]
              rintro (hm | hm)
              · exact job_finished_not_mem_compact _ env wid hm
              · exact job_finished_not_mem_update_db _ wid hm
          · simp only [RunningJobModel.handle_message_inner, hcs, he, ne_eq,
              not_true_eq_false, if_false, hev, Except.ok.injEq, Prod.mk.injEq] at h
            obtain ⟨h1, h2⟩ := h
            subst h1
            subst h2
            exact ⟨rfl, fun wid => job_finished_not_mem_update_db _ wid⟩
      · simp only [RunningJobModel.handle_message_inner, hcs, he, ne_eq,
          not_false_eq_true, if_true, Except.ok.injEq, Prod.mk.injEq] at h
        obtain ⟨h1, h2⟩ := h
        subst h1
        subst h2
        exact ⟨rfl, by simp⟩
  | TaskCheckpointFinished c =>
    cases hcs : m.checkpoint_state with
    | none =>
      simp only [RunningJobModel.handle_message_inner, hcs, Except.ok.injEq,
        Prod.mk.injEq] at h
      obtain ⟨h1, h2⟩ := h
      subst h1
      subst h2
      exact ⟨rfl, by simp⟩
    | some cs =>
      by_cases he : c.epoch = m.epoch
      · cases cs with
        | Checkpointing ck =>
          simp only [RunningJobModel.handle_message_inner, hcs, he, ne_eq,
            not_true_eq_false, if_false] at h
          split at h <;>
          · simp only [Except.ok.injEq, Prod.mk.injEq] at h
            obtain ⟨h1, h2⟩ := h
            subst h1
            subst h2
            exact ⟨rfl, fun wid => job_finished_not_mem_update_db _ wid⟩
        | Committing co =>
          simp only [RunningJobModel.handle_message_inner, hcs, he, ne_eq,
            not_true_eq_false, if_false] at h
          cases h
      · simp only [RunningJobModel.handle_message_inner, hcs, he, ne_eq,
          not_false_eq_true, if_true, Except.ok.injEq, Prod.mk.injEq] at h
        obtain ⟨h1, h2⟩ := h
        subst h1
        subst h2
        exact ⟨rfl, by simp⟩
  | TaskFinished w t node_id subtask_index =>
    simp only [RunningJobModel.handle_message_inner, Except.ok.injEq, Prod.mk.injEq] at h
    obtain ⟨h1, h2⟩ := h
    subst h1
    subst h2
    exact ⟨rfl, by simp⟩
  | TaskFailed w node_id subtask_index reason =>
    simp only [RunningJobModel.handle_message_inner, Except.ok.injEq, Prod.mk.injEq] at h
    obtain ⟨h1, h2⟩ := h
    subst h1
    subst h2
    exact ⟨rfl, by simp⟩
  | WorkerHeartbeat worker_id time =>
    simp only [RunningJobModel.handle_message_inner, Except.ok.injEq, Prod.mk.injEq] at h
    obtain ⟨h1, h2⟩ := h
    subst h1
    subst h2
    exact ⟨rfl, by simp⟩
  | WorkerFinished worker_id =>
    simp only [RunningJobModel.handle_message_inner, Except.ok.injEq, Prod.mk.injEq] at h
    obtain ⟨h1, h2⟩ := h
    subst h1
    subst h2
    exact ⟨rfl, by simp⟩

/-! ## Claim C4: job_finished broadcast and Stopped transition -/

/-- Claim C4: after handle_message processes one message, if the model is
Running, every task is Finished, and no coordination state is present, then
job_finished() is emitted for every worker and the model transitions to
Stopped; and once the model is Stopped, handle_message never emits
job_finished() again (so the broadcast happens at most once). -/
theorem job_finished_broadcast_spec (m : RunningJobModel) (msg : RunningMessage) (env : Env)
    (mid : RunningJobModel) (effsi : List Effect)
    (hinner : m.handle_message_inner msg env = .ok (mid, effsi)) :
    ((mid.state == JobState.Running && mid.all_tasks_finished &&
        mid.checkpoint_state.isNone) = true →
      m.handle_message msg env = .ok ({ mid with state := JobState.Stopped },
        effsi ++ mid.workers.map (fun w => Effect.JobFinishedRpc w.2.id)) ∧
      ∀ w ∈ mid.workers, Effect.JobFinishedRpc w.2.id ∈
        effsi ++ mid.workers.map (fun w2 => Effect.JobFinishedRpc w2.2.id)) ∧
    (m.state = JobState.Stopped →
      ∀ m2 effs, m.handle_message msg env = .ok (m2, effs) →
        m2.state = JobState.Stopped ∧ ∀ wid, Effect.JobFinishedRpc wid ∉ effs) := by
  constructor
  · intro hcond
    constructor
    · unfold RunningJobModel.handle_message
      simp only [hinner]
      rw [if_pos hcond]
    · intro w hw
      rw [List.mem_append]
      right
      exact List.mem_map_of_mem _ hw
  · intro hstop m2 effs hmsg
    have hframe := handle_message_inner_frame m msg env mid effsi hinner
    have hmidstate : mid.state = JobState.Stopped := hframe.1.trans hstop
    unfold RunningJobModel.handle_message at hmsg
    simp only [hinner] at hmsg
    have hcond : (mid.state == JobState.Running && mid.all_tasks_finished &&
        mid.checkpoint_state.isNone) = false := by
      rw [hmidstate]
      rfl
    rw [if_neg (by rw [hcond]; exact Bool.false_ne_true)] at hmsg
    simp only [Except.ok.injEq, Prod.mk.injEq] at hmsg
    obtain ⟨h1, h2⟩ := hmsg
    subst h1
    subst h2
    exact ⟨hmidstate, hframe.2⟩

/-- A model with one still-running task and one worker. -/
def mOneTask : RunningJobModel :=
  { baseModel with workers := [(1, wStatus1)], tasks := [((1, 0), TaskState.Running)] }

/-- Witness for C4: a TaskFinished message that completes the last task
triggers the job_finished broadcast and the Stopped transition. -/
theorem job_finished_broadcast_spec_witness :
    mOneTask.handle_message (RunningMessage.TaskFinished 1 0 1 0) envT =
      .ok ({ mOneTask with
              tasks := [((1, 0), TaskState.Finished)],
              state := JobState.Stopped }, [Effect.JobFinishedRpc 1]) := by
  have h := (job_finished_broadcast_spec mOneTask (RunningMessage.TaskFinished 1 0 1 0) envT
    { mOneTask with tasks := [((1, 0), TaskState.Finished)] } [] rfl).1 (by decide)
  exact h.1

/-! ## Claim C3: wrong-epoch events are dropped -/

/-- A model whose tasks are all finished, with no coordination state. -/
def mAllFinished : RunningJobModel :=
  { baseModel with tasks := [((1, 0), TaskState.Finished)], epoch := 5 }

/-- A checkpoint event for a stale epoch. -/
def evWrongEpoch : TaskCheckpointEventMsg :=
  { epoch := 3, operator_id := "op1", subtask_index := 0,
    event_type := TaskCheckpointEventType.CheckpointStarted }

/-- Counterexample to C3 as stated: a wrong-epoch TaskCheckpointEvent
arriving when no coordination state is present, while the job is Running with
all tasks Finished, returns Ok but does change the model (the end-of-job
check transitions it to Stopped). -/
theorem wrong_epoch_changes_model_cex :
    evWrongEpoch.epoch ≠ mAllFinished.epoch ∧
    mAllFinished.handle_message (RunningMessage.TaskCheckpointEvent evWrongEpoch) envT =
      .ok ({ mAllFinished with state := JobState.Stopped }, []) ∧
    ({ mAllFinished with state := JobState.Stopped } : RunningJobModel) ≠ mAllFinished := by
  refine ⟨by decide, rfl, by decide⟩

/-- Claim C3 (amended): a wrong-epoch TaskCheckpointEvent or
TaskCheckpointFinished is dropped with Ok: whenever a coordination state is
present (in particular in the Committing phase, where it is not an
InvariantViolation), the model is left entirely unchanged with no effects;
when no coordination state is present the event itself is ignored, and the
only possible change is the end-of-job check that runs after every message
(Running + all tasks Finished transitions to Stopped, emitting
job_finished). -/
theorem wrong_epoch_dropped_spec (m : RunningJobModel) (env : Env)
    (c : TaskCheckpointEventMsg) (f : TaskCheckpointFinishedMsg)
    (hc : c.epoch ≠ m.epoch) (hf : f.epoch ≠ m.epoch) :
    (m.checkpoint_state.isSome = true →
      m.handle_message (RunningMessage.TaskCheckpointEvent c) env = .ok (m, []) ∧
      m.handle_message (RunningMessage.TaskCheckpointFinished f) env = .ok (m, [])) ∧
    (m.checkpoint_state = none →
      ((m.handle_message (RunningMessage.TaskCheckpointEvent c) env = .ok (m, []) ∧
        m.handle_message (RunningMessage.TaskCheckpointFinished f) env = .ok (m, [])) ∨
       (m.state = JobState.Running ∧ m.all_tasks_finished = true ∧
        m.handle_message (RunningMessage.TaskCheckpointEvent c) env =
          .ok ({ m with state := JobState.Stopped },
            m.workers.map (fun w => Effect.JobFinishedRpc w.2.id)) ∧
        m.handle_message (RunningMessage.TaskCheckpointFinished f) env =
          .ok ({ m with state := JobState.Stopped },
            m.workers.map (fun w => Effect.JobFinishedRpc w.2.id))))) := by
  constructor
  · intro hsome
    obtain ⟨cs, hcs⟩ := Option.isSome_iff_exists.mp hsome
    have hfalse : (m.state == JobState.Running && m.all_tasks_finished &&
        m.checkpoint_state.isNone) = false := by
      rw [hcs]
      simp
    constructor
    · unfold RunningJobModel.handle_message RunningJobModel.handle_message_inner
      rw [hcs]
      simp only [if_pos hc]
      rw [if_neg (by rw [hfalse]; exact Bool.false_ne_true)]
    · unfold RunningJobModel.handle_message RunningJobModel.handle_message_inner
      rw [hcs]
      simp only [if_pos hf]
      rw [if_neg (by rw [hfalse]; exact Bool.false_ne_true)]
  · intro hnone
    by_cases hb : (m.state == JobState.Running && m.all_tasks_finished &&
        m.checkpoint_state.isNone) = true
    · right
      have hrun : m.state = JobState.Running := by
        have := hb
        simp only [Bool.and_eq_true, beq_iff_eq] at this
        exact this.1.1
      have hall : m.all_tasks_finished = true := by
        have := hb
        simp only [Bool.and_eq_true, beq_iff_eq] at this
        exact this.1.2
      refine ⟨hrun, hall, ?_, ?_⟩
      · unfold RunningJobModel.handle_message RunningJobModel.handle_message_inner
        rw [hnone]
        simp only []
        rw [if_pos hb]
        simp [hnone]
      · unfold RunningJobModel.handle_message RunningJobModel.handle_message_inner
        rw [hnone]
        simp only []
        rw [if_pos hb]
        simp [hnone]
    · left
      constructor
      · unfold RunningJobModel.handle_message RunningJobModel.handle_message_inner
        rw [hnone]
        simp only []
        rw [if_neg hb]
      · unfold RunningJobModel.handle_message RunningJobModel.handle_message_inner
        rw [hnone]
        simp only []
        rw [if_neg hb]

/-- Witness for C3 (amended): a wrong-epoch event during the Committing phase
is dropped with Ok and the model (including epoch 5 and its coordination
state) is unchanged. -/
theorem wrong_epoch_dropped_spec_witness :
    ({ mCommitDone with epoch := 5 } : RunningJobModel).handle_message
      (RunningMessage.TaskCheckpointEvent evWrongEpoch) envT =
        .ok ({ mCommitDone with epoch := 5 }, []) := by
  have h := (wrong_epoch_dropped_spec { mCommitDone with epoch := 5 } envT evWrongEpoch
    { epoch := 3, operator_id := "op1", subtask_index := 0, commit_subtasks := [],
      commit_data := [] } (by decide) (by decide)).1 rfl
  exact h.1

/-! ## Claim C5: mutual exclusion of checkpointing and cleanup -/

/-- At most one of an active coordination state and an active cleanup task. -/
def mutualExclusion (jc : JobController) : Prop :=
  ¬(jc.cleanup_task.isSome = true ∧ jc.model.checkpoint_state.isSome = true)

theorem reap_cleanup_frame (jc : JobController) :
    jc.reap_cleanup.1.model.checkpoint_state = jc.model.checkpoint_state ∧
    (jc.reap_cleanup.1.cleanup_task.isSome = true → jc.cleanup_task.isSome = true) := by
  unfold JobController.reap_cleanup
  cases hct : jc.cleanup_task with
  | none => simp [hct]
  | some t =>
    cases hf : t.finished
    · simp [hf, hct]
    · cases hr : t.result <;> simp [hf, hr, hct]

theorem reap_cleanup_me (jc : JobController) (hme : mutualExclusion jc) :
    mutualExclusion jc.reap_cleanup.1 := by
  rintro ⟨hc1, hc2⟩
  have hframe := reap_cleanup_frame jc
  rw [hframe.1] at hc2
  exact hme ⟨hframe.2 hc1, hc2⟩

theorem spawn_cleanup_guard (jc : JobController) :
    (mutualExclusion jc → mutualExclusion jc.spawn_cleanup.1) ∧
    jc.spawn_cleanup.1.model = jc.model ∧
    (jc.cleanup_task = none → jc.spawn_cleanup.1.cleanup_task.isSome = true →
      jc.model.checkpoint_state = none) := by
  unfold JobController.spawn_cleanup
  split
  · next v hcn =>
      by_cases hg : (jc.cleanup_task.isNone && jc.model.checkpoint_state.isNone) = true
      · rw [if_pos hg]
        have hg2 := (Bool.and_eq_true _ _).mp hg
        have hcsn : jc.model.checkpoint_state = none :=
          Option.isNone_iff_eq_none.mp hg2.2
        refine ⟨fun _ => ?_, rfl, fun _ _ => hcsn⟩
        rintro ⟨-, hc2⟩
        simp only at hc2
        rw [hcsn] at hc2
        cases hc2
      · rw [if_neg hg]
        refine ⟨fun hme => hme, rfl, fun hn h => ?_⟩
        simp only at h
        rw [hn] at h
        cases h
  · next hcn =>
      refine ⟨fun hme => hme, rfl, fun hn h => ?_⟩
      simp only at h
      rw [hn] at h
      cases h

theorem metrics_step_frame (jc : JobController) (env : Env) :
    (jc.metrics_step env).1.cleanup_task = jc.cleanup_task ∧
    (jc.metrics_step env).1.model.checkpoint_state = jc.model.checkpoint_state := by
  unfold JobController.metrics_step
  by_cases h : env.now - jc.model.last_updated_metrics > env.collection_rate <;> simp [h]

theorem checkpoint_preserves_cleanup (jc : JobController) (ts : Bool) (env : Env)
    (jc2 : JobController) (started : Bool) (effs : List Effect)
    (h : jc.checkpoint ts env = .ok (jc2, started, effs)) :
    jc2.cleanup_task = jc.cleanup_task := by
  unfold JobController.checkpoint at h
  by_cases hn : jc.model.checkpoint_state.isNone = true
  · rw [if_pos hn] at h
    cases hsc : jc.model.start_checkpoint jc.organization_id ts env with
    | error e =>
      rw [hsc] at h
      cases h
    | ok p =>
      rw [hsc] at h
      simp only [Except.ok.injEq, Prod.mk.injEq] at h
      obtain ⟨h1, -, -⟩ := h
      rw [← h1]
  · rw [if_neg hn] at h
    simp only [Except.ok.injEq, Prod.mk.injEq] at h
    obtain ⟨h1, -, -⟩ := h
    rw [← h1]

theorem checkpoint_step_me (jc : JobController) (env : Env)
    (jc3 : JobController) (effs : List Effect)
    (h : jc.checkpoint_step env = .ok (jc3, effs)) (hme : mutualExclusion jc) :
    mutualExclusion jc3 := by
  unfold JobController.checkpoint_step at h
  by_cases hcs : jc.model.checkpoint_state.isSome = true
  · rw [if_pos hcs] at h
    cases hfc : jc.model.finish_checkpoint_if_done env with
    | error e =>
      rw [hfc] at h
      cases h
    | ok p =>
      rw [hfc] at h
      simp only [Except.ok.injEq, Prod.mk.injEq] at h
      obtain ⟨h1, -⟩ := h
      have hclean : jc.cleanup_task.isSome = false := by
        cases h2 : jc.cleanup_task.isSome with
        | false => rfl
        | true => exact absurd ⟨h2, hcs⟩ hme
      rintro ⟨hc1, -⟩
      rw [← h1] at hc1
      simp only at hc1
      rw [hclean] at hc1
      cases hc1
  · rw [if_neg hcs] at h
    by_cases hg : (decide (env.now - jc.model.last_checkpoint > jc.checkpoint_interval)
        && jc.cleanup_task.isNone) = true
    · rw [if_pos hg] at h
      simp only [Bool.and_eq_true, Option.isNone_iff_eq_none] at hg
      cases hck : jc.checkpoint false env with
      | error e =>
        rw [hck] at h
        cases h
      | ok p =>
        rw [hck] at h
        simp only [Except.ok.injEq, Prod.mk.injEq] at h
        obtain ⟨h1, -⟩ := h
        have hpc : p.1.cleanup_task = jc.cleanup_task :=
          checkpoint_preserves_cleanup jc false env p.1 p.2.1 p.2.2 (by rw [hck])
        rintro ⟨hc1, -⟩
        rw [← h1, hpc, hg.2] at hc1
        cases hc1
    · rw [if_neg hg] at h
      simp only [Except.ok.injEq, Prod.mk.injEq] at h
      obtain ⟨h1, -⟩ := h
      rw [← h1]
      exact hme

/-- Claim C5 (amended): the progress loop preserves mutual exclusion between
an active coordination state and an active cleanup task — it spawns a cleanup
task only when both the cleanup task and the coordination state are absent,
and its periodic checkpoint path additionally requires the cleanup task to be
absent.  However, the checkpoint(then_stop) entry point itself checks only
that no coordination state is present (not the cleanup task), so only
progress-driven executions maintain the invariant. -/
theorem cleanup_checkpoint_exclusion_spec (jc : JobController) (env : Env) :
    (∀ jc2 p effs, mutualExclusion jc → jc.progress env = .ok (jc2, p, effs) →
      mutualExclusion jc2) ∧
    (jc.cleanup_task = none → jc.spawn_cleanup.1.cleanup_task.isSome = true →
      jc.model.checkpoint_state = none) ∧
    (∀ jc2 started effs ts, jc.checkpoint ts env = .ok (jc2, started, effs) →
      started = true → jc.model.checkpoint_state = none) := by
  refine ⟨?_, (spawn_cleanup_guard jc).2.2, ?_⟩
  · intro jc2 p effs hme hp
    unfold JobController.progress at hp
    by_cases hfail : jc.model.failed env = true
    · rw [if_pos hfail] at hp
      cases hp
    · rw [if_neg hfail] at hp
      by_cases hfin : jc.model.any_finished_sources = true
      · rw [if_pos hfin] at hp
        simp only [Except.ok.injEq, Prod.mk.injEq] at hp
        obtain ⟨h1, -, -⟩ := hp
        rw [← h1]
        exact hme
      · rw [if_neg hfin] at hp
        simp only [] at hp
        have hme1 : mutualExclusion jc.reap_cleanup.1 := reap_cleanup_me jc hme
        have hme2 : mutualExclusion jc.reap_cleanup.1.spawn_cleanup.1 :=
          (spawn_cleanup_guard jc.reap_cleanup.1).1 hme1
        cases hcs : jc.reap_cleanup.1.spawn_cleanup.1.checkpoint_step env with
        | error e =>
          rw [hcs] at hp
          cases hp
        | ok q =>
          rw [hcs] at hp
          simp only [Except.ok.injEq, Prod.mk.injEq] at hp
          obtain ⟨h1, -, -⟩ := hp
          have hme3 : mutualExclusion q.1 :=
            checkpoint_step_me _ env q.1 q.2 (by rw [hcs]) hme2
          have hmf := metrics_step_frame q.1 env
          rintro ⟨hc1, hc2⟩
          rw [← h1] at hc1 hc2
          rw [hmf.1] at hc1
          rw [hmf.2] at hc2
          exact hme3 ⟨hc1, hc2⟩
  · intro jc2 started effs ts h hstarted
    unfold JobController.checkpoint at h
    by_cases hn : jc.model.checkpoint_state.isNone = true
    · exact Option.isNone_iff_eq_none.mp hn
    · rw [if_neg hn] at h
      simp only [Except.ok.injEq, Prod.mk.injEq] at h
      obtain ⟨-, h2, -⟩ := h
      rw [hstarted] at h2
      cases h2

/-- A controller fixture with an active (unfinished) cleanup task and no
coordination state. -/
def jcCleanupActive : JobController :=
  { organization_id := "org1", checkpoint_interval := 10, model := baseModel,
    cleanup_task := some { finished := false, result := .error "running" } }

/-- The model produced by starting a checkpoint from `baseModel` in `envT`. -/
def baseModelCheckpointing : RunningJobModel :=
  { baseModel with
      epoch := 1,
      checkpoint_spans := [
        JobCheckpointSpan.now JobCheckpointEventType.Checkpointing 7,
        JobCheckpointSpan.now JobCheckpointEventType.CheckpointingOperators 7],
      checkpoint_state := (some (CheckpointingOrCommittingState.Checkpointing
        (CheckpointState.new baseModel "cp1"))) }

/-- Counterexample to C5 as stated: the checkpoint(then_stop) entry point
(JobController::checkpoint, mod.rs lines 873-882) checks only that no
coordination state is present; invoked while a cleanup task is active it
starts a checkpoint, after which both an active cleanup task and an active
coordination state are present. -/
theorem checkpoint_during_cleanup_cex :
    jcCleanupActive.cleanup_task.isSome = true ∧
    jcCleanupActive.checkpoint false envT =
      .ok ({ jcCleanupActive with model := baseModelCheckpointing }, true,
        [Effect.CreateCheckpointRow "cp1" "org1" "job1" 1 0 7 DbCheckpointState.inprogress]) ∧
    ({ jcCleanupActive with model := baseModelCheckpointing } : JobController).cleanup_task.isSome
      = true ∧
    baseModelCheckpointing.checkpoint_state.isSome = true := by
  exact ⟨rfl, rfl, rfl, rfl⟩

/-- Witness for C5 (amended): one concrete progress tick from a controller
with the cleanup task active and no coordination state (it only refreshes
metrics) keeps mutual exclusion. -/
theorem cleanup_checkpoint_exclusion_spec_witness :
    mutualExclusion jcCleanupActive ∧
    jcCleanupActive.progress envT = .ok
      ({ jcCleanupActive with model := { baseModel with last_updated_metrics := 7 } },
        ControllerProgress.Continue, [Effect.UpdateMetrics]) ∧
    mutualExclusion
      { jcCleanupActive with model := { baseModel with last_updated_metrics := 7 } } := by
  refine ⟨?_, rfl, ?_⟩
  · rintro ⟨-, hc2⟩
    cases hc2
  · exact (cleanup_checkpoint_exclusion_spec jcCleanupActive envT).1 _ _ _
      (by rintro ⟨-, hc2⟩; cases hc2) rfl

end Arroyo
